import Mathlib

/-!
# Template Method (`src/TemplateMethod/TemplateMethod.cpp`)

A shallow embedding of the C++ program and the properties its specification states.

The only state the program touches is the standard output stream, so every C++ method
`void m() const` becomes a function `ostream → ostream` taking the text written so far and
returning the text written after the call.  The receiver `this` is a read-only argument, as
`const` says.  A class with virtual methods becomes the record of its virtual methods; a
subclass is a value of that record, and a virtual method the subclass does not override keeps
the body given in the base class.
-/

namespace TemplateMethod

/-! ## The output stream -/

/-- The standard output stream `cout`, as the text written to it so far. -/
abbrev ostream := String

/-- The statement `cout << s`. -/
def ostream.write (cout : ostream) (s : String) : ostream :=
  cout ++ s

/-! ## `class AbstractClass` -/

/-- The virtual methods of `AbstractClass`.  `RequiredOperations1` and `RequiredOperation2` are
pure virtual (`= 0`), so a value must supply them; `Hook1` and `Hook2` have the empty body
`{}` unless overridden. -/
structure AbstractClass where
  RequiredOperations1 : ostream → ostream
  RequiredOperation2 : ostream → ostream
  Hook1 : ostream → ostream := fun cout => cout
  Hook2 : ostream → ostream := fun cout => cout

/-- The method `void BaseOperation1() const` (not virtual). -/
def AbstractClass.BaseOperation1 (_this : AbstractClass) (cout : ostream) : ostream :=
  cout.write "AbstractClass says: I am doing the bulk of the work\n"

/-- The method `void BaseOperation2() const` (not virtual). -/
def AbstractClass.BaseOperation2 (_this : AbstractClass) (cout : ostream) : ostream :=
  cout.write "AbstractClass says: But I let subclasses override some operations\n"

/-- The method `void BaseOperation3() const` (not virtual). -/
def AbstractClass.BaseOperation3 (_this : AbstractClass) (cout : ostream) : ostream :=
  cout.write "AbstractClass says: But I am doing the bulk of the work anyway\n"

/-- The method `void TemplateMethod() const`: seven calls on `this`, one after the other. -/
def AbstractClass.TemplateMethod (this : AbstractClass) (cout : ostream) : ostream :=
  let cout := this.BaseOperation1 cout
  let cout := this.RequiredOperations1 cout
  let cout := this.BaseOperation2 cout
  let cout := this.Hook1 cout
  let cout := this.RequiredOperation2 cout
  let cout := this.BaseOperation3 cout
  let cout := this.Hook2 cout
  cout

/-! ## The concrete classes -/

/-- The class `ConcreteClass1 : public AbstractClass`: overrides the two required operations
and neither hook. -/
def ConcreteClass1 : AbstractClass where
  RequiredOperations1 := fun cout => cout.write "ConcreteClass1 says: Implemented Operation1\n"
  RequiredOperation2 := fun cout => cout.write "ConcreteClass1 says: Implemented Operation2\n"

/-- The class `ConcreteClass2 : public AbstractClass`: overrides the two required operations
and `Hook1`. -/
def ConcreteClass2 : AbstractClass where
  RequiredOperations1 := fun cout => cout.write "ConcreteClass2 says: Implemented Operation1\n"
  RequiredOperation2 := fun cout => cout.write "ConcreteClass2 says: Implemented Operation2\n"
  Hook1 := fun cout => cout.write "ConcreteClass2 says: Overridden Hook1\n"

/-! ## Client code and driver -/

/-- The function `void ClientCode(AbstractClass* class_)`. -/
def ClientCode (class_ : AbstractClass) (cout : ostream) : ostream :=
  class_.TemplateMethod cout

/-- The function `int main()`: the returned status and the output stream at exit.  The objects
made by `new` have no data members, so `new` yields the class value and `delete` has no effect
on the output. -/
def main (cout : ostream) : Int × ostream :=
  let cout := cout.write "Same client code can work with different subclasses:\n"
  let concreteClass1 := ConcreteClass1
  let cout := ClientCode concreteClass1 cout
  let cout := cout.write "\n"
  let cout := cout.write "Same client code can work with different subclasses:\n"
  let concreteClass2 := ConcreteClass2
  let cout := ClientCode concreteClass2 cout
  (0, cout)

/-! ## Vocabulary of the specification -/

/-- The method body `f` does nothing but write the text `t`: whatever the stream holds, the
call appends `t` to it.  This is how the specification describes a step of a variant. -/
def Writes (f : ostream → ostream) (t : String) : Prop :=
  ∀ cout : ostream, f cout = cout ++ t

/-- The number of output lines in a text: its newline characters. -/
def lineCount (s : String) : Nat :=
  s.toList.count '\n'

/-- The text made of the given lines, each followed by a newline. -/
def unlines (ls : List String) : String :=
  String.join (ls.map fun l => l ++ "\n")

/-! ## Helper lemmas -/

theorem lineCount_append (s t : String) : lineCount (s ++ t) = lineCount s + lineCount t := by
  simp [lineCount, String.toList, List.count_append]

theorem append_left_cancel {a b c : String} (h : a ++ b = a ++ c) : b = c := by
  have hd := congrArg String.data h
  simp only [String.data_append, List.append_cancel_left_eq] at hd
  exact String.ext hd

/-- The output of the template method for a variant whose four steps write given texts. -/
theorem templateMethod_of_writes (v : AbstractClass) (r1 h1 r2 h2 : String)
    (hr1 : Writes v.RequiredOperations1 r1) (hh1 : Writes v.Hook1 h1)
    (hr2 : Writes v.RequiredOperation2 r2) (hh2 : Writes v.Hook2 h2) (cout : ostream) :
    v.TemplateMethod cout =
      cout ++ ("AbstractClass says: I am doing the bulk of the work\n" ++ (r1 ++
        ("AbstractClass says: But I let subclasses override some operations\n" ++ (h1 ++ (r2 ++
          ("AbstractClass says: But I am doing the bulk of the work anyway\n" ++ h2)))))) := by
  simp only [AbstractClass.TemplateMethod, AbstractClass.BaseOperation1,
    AbstractClass.BaseOperation2, AbstractClass.BaseOperation3, ostream.write,
    hr1 _, hh1 _, hr2 _, hh2 _, String.append_assoc]

theorem concreteClass1_output (cout : ostream) :
    ConcreteClass1.TemplateMethod cout =
      cout ++ ("AbstractClass says: I am doing the bulk of the work\n" ++
        ("ConcreteClass1 says: Implemented Operation1\n" ++
        ("AbstractClass says: But I let subclasses override some operations\n" ++ ("" ++
        ("ConcreteClass1 says: Implemented Operation2\n" ++
        ("AbstractClass says: But I am doing the bulk of the work anyway\n" ++ "")))))) :=
  templateMethod_of_writes ConcreteClass1 _ _ _ _ (fun _ => rfl)
    (fun c => (String.append_empty c).symm) (fun _ => rfl)
    (fun c => (String.append_empty c).symm) cout

theorem concreteClass2_output (cout : ostream) :
    ConcreteClass2.TemplateMethod cout =
      cout ++ ("AbstractClass says: I am doing the bulk of the work\n" ++
        ("ConcreteClass2 says: Implemented Operation1\n" ++
        ("AbstractClass says: But I let subclasses override some operations\n" ++
        ("ConcreteClass2 says: Overridden Hook1\n" ++
        ("ConcreteClass2 says: Implemented Operation2\n" ++
        ("AbstractClass says: But I am doing the bulk of the work anyway\n" ++ "")))))) :=
  templateMethod_of_writes ConcreteClass2 _ _ _ _ (fun _ => rfl) (fun _ => rfl) (fun _ => rfl)
    (fun c => (String.append_empty c).symm) cout

theorem lineCount_empty : lineCount "" = 0 := by decide

theorem lineCount_base1 :
    lineCount "AbstractClass says: I am doing the bulk of the work\n" = 1 := by decide

theorem lineCount_base2 :
    lineCount "AbstractClass says: But I let subclasses override some operations\n" = 1 := by
  decide

theorem lineCount_base3 :
    lineCount "AbstractClass says: But I am doing the bulk of the work anyway\n" = 1 := by
  decide

theorem concreteClass1_lineCount : lineCount (ConcreteClass1.TemplateMethod "") = 5 := by
  have e1 : lineCount "ConcreteClass1 says: Implemented Operation1\n" = 1 := by decide
  have e2 : lineCount "ConcreteClass1 says: Implemented Operation2\n" = 1 := by decide
  rw [concreteClass1_output]
  simp only [lineCount_append, lineCount_empty, lineCount_base1, lineCount_base2,
    lineCount_base3, e1, e2]

theorem concreteClass2_lineCount : lineCount (ConcreteClass2.TemplateMethod "") = 6 := by
  have e1 : lineCount "ConcreteClass2 says: Implemented Operation1\n" = 1 := by decide
  have e2 : lineCount "ConcreteClass2 says: Implemented Operation2\n" = 1 := by decide
  have e3 : lineCount "ConcreteClass2 says: Overridden Hook1\n" = 1 := by decide
  rw [concreteClass2_output]
  simp only [lineCount_append, lineCount_empty, lineCount_base1, lineCount_base2,
    lineCount_base3, e1, e2, e3]

/-! ## The skeleton -/

/-- C1: for every variant whose `RequiredOperations1`, `Hook1`, `RequiredOperation2` and `Hook2`
write the texts `r1`, `h1`, `r2` and `h2`, the three base operations write their fixed texts and
`TemplateMethod` appends to the stream exactly the seven texts, each once, in the order
BaseOperation1, RequiredOperations1, BaseOperation2, Hook1, RequiredOperation2, BaseOperation3,
Hook2. -/
theorem templateMethod_seven_steps_in_order (v : AbstractClass) (r1 h1 r2 h2 : String)
    (hr1 : Writes v.RequiredOperations1 r1) (hh1 : Writes v.Hook1 h1)
    (hr2 : Writes v.RequiredOperation2 r2) (hh2 : Writes v.Hook2 h2) (cout : ostream) :
    Writes v.BaseOperation1 "AbstractClass says: I am doing the bulk of the work\n" ∧
    Writes v.BaseOperation2
      "AbstractClass says: But I let subclasses override some operations\n" ∧
    Writes v.BaseOperation3 "AbstractClass says: But I am doing the bulk of the work anyway\n" ∧
    v.TemplateMethod cout =
      cout ++ String.join
        ["AbstractClass says: I am doing the bulk of the work\n",
         r1,
         "AbstractClass says: But I let subclasses override some operations\n",
         h1,
         r2,
         "AbstractClass says: But I am doing the bulk of the work anyway\n",
         h2] := by
  refine ⟨fun _ => rfl, fun _ => rfl, fun _ => rfl, ?_⟩
  rw [templateMethod_of_writes v r1 h1 r2 h2 hr1 hh1 hr2 hh2 cout]
  simp only [String.join, List.foldl, String.empty_append, String.append_assoc]

/-- Witness of C1: a variant whose steps write "a\n", "b\n", "c\n" and "d\n". -/
theorem templateMethod_seven_steps_in_order_witness :
    (⟨fun c => c ++ "a\n", fun c => c ++ "c\n", fun c => c ++ "b\n", fun c => c ++ "d\n"⟩ :
        AbstractClass).TemplateMethod ">" =
      ">" ++ String.join
        ["AbstractClass says: I am doing the bulk of the work\n",
         "a\n",
         "AbstractClass says: But I let subclasses override some operations\n",
         "b\n",
         "c\n",
         "AbstractClass says: But I am doing the bulk of the work anyway\n",
         "d\n"] :=
  (templateMethod_seven_steps_in_order
    ⟨fun c => c ++ "a\n", fun c => c ++ "c\n", fun c => c ++ "b\n", fun c => c ++ "d\n"⟩
    "a\n" "b\n" "c\n" "d\n" (fun _ => rfl) (fun _ => rfl) (fun _ => rfl) (fun _ => rfl) ">").2.2.2

/-- C2, as stated, fails: `TemplateMethod` on `ConcreteClass1` writes five lines, not seven. -/
theorem concreteClass1_not_seven_lines :
    lineCount (ConcreteClass1.TemplateMethod "") = 5 ∧
    ¬ lineCount (ConcreteClass1.TemplateMethod "") = 7 := by
  rw [concreteClass1_lineCount]
  decide

/-- C2, amended: for every variant, `TemplateMethod` appends the texts of the seven steps in the
fixed order 1-7; the number of lines it adds is three, one per base operation, plus the lines
the variant's four steps write; a hook left at its default body writes nothing, so
`ConcreteClass1` yields five lines and `ConcreteClass2` six. -/
theorem templateMethod_line_count (v : AbstractClass) (r1 h1 r2 h2 : String)
    (hr1 : Writes v.RequiredOperations1 r1) (hh1 : Writes v.Hook1 h1)
    (hr2 : Writes v.RequiredOperation2 r2) (hh2 : Writes v.Hook2 h2) (cout : ostream) :
    v.TemplateMethod cout =
      cout ++ String.join
        ["AbstractClass says: I am doing the bulk of the work\n",
         r1,
         "AbstractClass says: But I let subclasses override some operations\n",
         h1,
         r2,
         "AbstractClass says: But I am doing the bulk of the work anyway\n",
         h2] ∧
    lineCount (v.TemplateMethod cout) =
      lineCount cout + (1 + lineCount r1 + 1 + lineCount h1 + lineCount r2 + 1 + lineCount h2) ∧
    (∀ f g : ostream → ostream,
      Writes ({ RequiredOperations1 := f, RequiredOperation2 := g } : AbstractClass).Hook1 "" ∧
      Writes ({ RequiredOperations1 := f, RequiredOperation2 := g } : AbstractClass).Hook2 "") ∧
    lineCount (ConcreteClass1.TemplateMethod "") = 5 ∧
    lineCount (ConcreteClass2.TemplateMethod "") = 6 := by
  refine ⟨?_, ?_, fun _ _ => ⟨fun c => (String.append_empty c).symm,
    fun c => (String.append_empty c).symm⟩, concreteClass1_lineCount, concreteClass2_lineCount⟩
  · rw [templateMethod_of_writes v r1 h1 r2 h2 hr1 hh1 hr2 hh2 cout]
    simp only [String.join, List.foldl, String.empty_append, String.append_assoc]
  · rw [templateMethod_of_writes v r1 h1 r2 h2 hr1 hh1 hr2 hh2 cout]
    simp only [lineCount_append, lineCount_base1, lineCount_base2, lineCount_base3]
    omega

/-- Witness of the amended C2: `ConcreteClass2`, whose `Hook2` is the default one. -/
theorem templateMethod_line_count_witness :
    lineCount (ConcreteClass2.TemplateMethod "") =
      lineCount "" + (1 + lineCount "ConcreteClass2 says: Implemented Operation1\n" + 1 +
        lineCount "ConcreteClass2 says: Overridden Hook1\n" +
        lineCount "ConcreteClass2 says: Implemented Operation2\n" + 1 + lineCount "") :=
  (templateMethod_line_count ConcreteClass2
    "ConcreteClass2 says: Implemented Operation1\n" "ConcreteClass2 says: Overridden Hook1\n"
    "ConcreteClass2 says: Implemented Operation2\n" "" (fun _ => rfl) (fun _ => rfl)
    (fun _ => rfl) (fun c => (String.append_empty c).symm) "").2.1

/-! ## The two concrete classes -/

/-- C3: `TemplateMethod` on `ConcreteClass1` appends to the stream exactly five lines, in this
order; they are the texts of the seven steps in order, where both hooks write nothing. -/
theorem concreteClass1_five_lines (cout : ostream) :
    ConcreteClass1.TemplateMethod cout =
      cout ++ unlines
        ["AbstractClass says: I am doing the bulk of the work",
         "ConcreteClass1 says: Implemented Operation1",
         "AbstractClass says: But I let subclasses override some operations",
         "ConcreteClass1 says: Implemented Operation2",
         "AbstractClass says: But I am doing the bulk of the work anyway"] ∧
    ConcreteClass1.TemplateMethod cout =
      cout ++ String.join
        [ConcreteClass1.BaseOperation1 "", ConcreteClass1.RequiredOperations1 "",
         ConcreteClass1.BaseOperation2 "", "", ConcreteClass1.RequiredOperation2 "",
         ConcreteClass1.BaseOperation3 "", ""] ∧
    ConcreteClass1.Hook1 "" = "" ∧ ConcreteClass1.Hook2 "" = "" ∧
    lineCount (ConcreteClass1.TemplateMethod "") = 5 := by
  refine ⟨?_, ?_, rfl, rfl, concreteClass1_lineCount⟩
  · rw [concreteClass1_output]
    simp only [unlines, List.map]
    rw [show "AbstractClass says: I am doing the bulk of the work" ++ "\n" =
          "AbstractClass says: I am doing the bulk of the work\n" from rfl,
      show "ConcreteClass1 says: Implemented Operation1" ++ "\n" =
          "ConcreteClass1 says: Implemented Operation1\n" from rfl,
      show "AbstractClass says: But I let subclasses override some operations" ++ "\n" =
          "AbstractClass says: But I let subclasses override some operations\n" from rfl,
      show "ConcreteClass1 says: Implemented Operation2" ++ "\n" =
          "ConcreteClass1 says: Implemented Operation2\n" from rfl,
      show "AbstractClass says: But I am doing the bulk of the work anyway" ++ "\n" =
          "AbstractClass says: But I am doing the bulk of the work anyway\n" from rfl]
    simp only [String.join, List.foldl, String.empty_append, String.append_empty,
      String.append_assoc]
  · rw [concreteClass1_output]
    simp only [String.join, List.foldl, String.empty_append, String.append_empty,
      String.append_assoc]
    rfl

/-- C4: `TemplateMethod` on `ConcreteClass2` appends to the stream exactly six lines, in this
order; they are the texts of the seven steps in order, where `Hook1` writes its own line and
`Hook2` writes nothing. -/
theorem concreteClass2_six_lines (cout : ostream) :
    ConcreteClass2.TemplateMethod cout =
      cout ++ unlines
        ["AbstractClass says: I am doing the bulk of the work",
         "ConcreteClass2 says: Implemented Operation1",
         "AbstractClass says: But I let subclasses override some operations",
         "ConcreteClass2 says: Overridden Hook1",
         "ConcreteClass2 says: Implemented Operation2",
         "AbstractClass says: But I am doing the bulk of the work anyway"] ∧
    ConcreteClass2.TemplateMethod cout =
      cout ++ String.join
        [ConcreteClass2.BaseOperation1 "", ConcreteClass2.RequiredOperations1 "",
         ConcreteClass2.BaseOperation2 "", ConcreteClass2.Hook1 "",
         ConcreteClass2.RequiredOperation2 "", ConcreteClass2.BaseOperation3 "", ""] ∧
    ConcreteClass2.Hook2 "" = "" ∧
    lineCount (ConcreteClass2.TemplateMethod "") = 6 := by
  refine ⟨?_, ?_, rfl, concreteClass2_lineCount⟩
  · rw [concreteClass2_output]
    simp only [unlines, List.map]
    rw [show "AbstractClass says: I am doing the bulk of the work" ++ "\n" =
          "AbstractClass says: I am doing the bulk of the work\n" from rfl,
      show "ConcreteClass2 says: Implemented Operation1" ++ "\n" =
          "ConcreteClass2 says: Implemented Operation1\n" from rfl,
      show "AbstractClass says: But I let subclasses override some operations" ++ "\n" =
          "AbstractClass says: But I let subclasses override some operations\n" from rfl,
      show "ConcreteClass2 says: Overridden Hook1" ++ "\n" =
          "ConcreteClass2 says: Overridden Hook1\n" from rfl,
      show "ConcreteClass2 says: Implemented Operation2" ++ "\n" =
          "ConcreteClass2 says: Implemented Operation2\n" from rfl,
      show "AbstractClass says: But I am doing the bulk of the work anyway" ++ "\n" =
          "AbstractClass says: But I am doing the bulk of the work anyway\n" from rfl]
    simp only [String.join, List.foldl, String.empty_append, String.append_empty,
      String.append_assoc]
  · rw [concreteClass2_output]
    simp only [String.join, List.foldl, String.empty_append, String.append_empty,
      String.append_assoc]
    rfl

/-! ## Hooks -/

/-- C5: the hooks a class does not override (`Hook1` and `Hook2` of `ConcreteClass1`, `Hook2` of
`ConcreteClass2`) write the empty text and leave the stream as it is; the overridden `Hook1` of
`ConcreteClass2` writes exactly one newline-terminated line, and in the output of
`TemplateMethod` that line comes right after the line of `BaseOperation2` and right before the
line of the class's `RequiredOperation2`. -/
theorem hooks_default_silent_overridden_one_line (cout : ostream) :
    (Writes ConcreteClass1.Hook1 "" ∧ ConcreteClass1.Hook1 cout = cout) ∧
    (Writes ConcreteClass1.Hook2 "" ∧ ConcreteClass1.Hook2 cout = cout) ∧
    (Writes ConcreteClass2.Hook2 "" ∧ ConcreteClass2.Hook2 cout = cout) ∧
    Writes ConcreteClass2.Hook1 ("ConcreteClass2 says: Overridden Hook1" ++ "\n") ∧
    '\n' ∉ "ConcreteClass2 says: Overridden Hook1".toList ∧
    lineCount (ConcreteClass2.Hook1 "") = 1 ∧
    Writes ConcreteClass2.BaseOperation2
      "AbstractClass says: But I let subclasses override some operations\n" ∧
    Writes ConcreteClass2.RequiredOperation2 "ConcreteClass2 says: Implemented Operation2\n" ∧
    ConcreteClass2.TemplateMethod cout =
      cout ++ String.join
        ["AbstractClass says: I am doing the bulk of the work\n",
         "ConcreteClass2 says: Implemented Operation1\n",
         "AbstractClass says: But I let subclasses override some operations\n",
         "ConcreteClass2 says: Overridden Hook1\n",
         "ConcreteClass2 says: Implemented Operation2\n",
         "AbstractClass says: But I am doing the bulk of the work anyway\n"] := by
  refine ⟨⟨fun c => (String.append_empty c).symm, rfl⟩,
    ⟨fun c => (String.append_empty c).symm, rfl⟩,
    ⟨fun c => (String.append_empty c).symm, rfl⟩,
    fun _ => rfl, by decide, by decide, fun _ => rfl, fun _ => rfl, ?_⟩
  rw [concreteClass2_output]
  simp only [String.join, List.foldl, String.empty_append, String.append_empty,
    String.append_assoc]

/-! ## Repeated invocation -/

/-- C6: for every variant whose four steps each write a fixed text, the text a run of
`TemplateMethod` appends does not depend on what the stream already holds, and two runs in
sequence on the same variant append the output of one run followed by that same output again.
The receiver is a read-only argument of the `const` method, so both runs are on the same
unchanged variant. -/
theorem templateMethod_twice (v : AbstractClass) (r1 h1 r2 h2 : String)
    (hr1 : Writes v.RequiredOperations1 r1) (hh1 : Writes v.Hook1 h1)
    (hr2 : Writes v.RequiredOperation2 r2) (hh2 : Writes v.Hook2 h2) (cout : ostream) :
    v.TemplateMethod cout = cout ++ v.TemplateMethod "" ∧
    v.TemplateMethod (v.TemplateMethod cout) =
      cout ++ v.TemplateMethod "" ++ v.TemplateMethod "" := by
  have key := templateMethod_of_writes v r1 h1 r2 h2 hr1 hh1 hr2 hh2
  have one : v.TemplateMethod cout = cout ++ v.TemplateMethod "" := by
    rw [key cout, key "", String.empty_append]
  refine ⟨one, ?_⟩
  rw [one, key (cout ++ v.TemplateMethod ""), key "", String.empty_append]

/-- Witness of C6: two runs on `ConcreteClass2`. -/
theorem templateMethod_twice_witness :
    ConcreteClass2.TemplateMethod (ConcreteClass2.TemplateMethod "") =
      "" ++ ConcreteClass2.TemplateMethod "" ++ ConcreteClass2.TemplateMethod "" :=
  (templateMethod_twice ConcreteClass2
    "ConcreteClass2 says: Implemented Operation1\n" "ConcreteClass2 says: Overridden Hook1\n"
    "ConcreteClass2 says: Implemented Operation2\n" "" (fun _ => rfl) (fun _ => rfl)
    (fun _ => rfl) (fun c => (String.append_empty c).symm) "").2

/-! ## Base operations -/

/-- C7: for any two variants `v` and `w`, whatever their four virtual methods do, each base
operation writes the same fixed line for `v` as for `w`, and inside `TemplateMethod` the three
base steps append exactly these lines around the variant's own steps. -/
theorem base_operations_same_for_all_variants (v w : AbstractClass) (cout : ostream) :
    (v.BaseOperation1 cout = w.BaseOperation1 cout ∧
      v.BaseOperation1 cout = cout ++ "AbstractClass says: I am doing the bulk of the work\n") ∧
    (v.BaseOperation2 cout = w.BaseOperation2 cout ∧
      v.BaseOperation2 cout =
        cout ++ "AbstractClass says: But I let subclasses override some operations\n") ∧
    (v.BaseOperation3 cout = w.BaseOperation3 cout ∧
      v.BaseOperation3 cout =
        cout ++ "AbstractClass says: But I am doing the bulk of the work anyway\n") ∧
    v.TemplateMethod cout =
      v.Hook2 (v.RequiredOperation2 (v.Hook1 (v.RequiredOperations1
        (cout ++ "AbstractClass says: I am doing the bulk of the work\n") ++
          "AbstractClass says: But I let subclasses override some operations\n")) ++
            "AbstractClass says: But I am doing the bulk of the work anyway\n") ∧
    w.TemplateMethod cout =
      w.Hook2 (w.RequiredOperation2 (w.Hook1 (w.RequiredOperations1
        (cout ++ "AbstractClass says: I am doing the bulk of the work\n") ++
          "AbstractClass says: But I let subclasses override some operations\n")) ++
            "AbstractClass says: But I am doing the bulk of the work anyway\n") :=
  ⟨⟨rfl, rfl⟩, ⟨rfl, rfl⟩, ⟨rfl, rfl⟩, rfl, rfl⟩

/-! ## Client code -/

/-- C8: for every variant, whatever its virtual methods do, `ClientCode` produces exactly the
output of the variant's `TemplateMethod`; and the same call yields different output for
different variants: on `ConcreteClass1` it differs from that on `ConcreteClass2`. -/
theorem clientCode_runs_templateMethod (v : AbstractClass) (cout : ostream) :
    ClientCode v cout = v.TemplateMethod cout ∧
    ClientCode ConcreteClass1 cout ≠ ClientCode ConcreteClass2 cout := by
  refine ⟨rfl, fun h => ?_⟩
  simp only [ClientCode] at h
  rw [concreteClass1_output, concreteClass2_output] at h
  have h1 := append_left_cancel (append_left_cancel h)
  have h2 := congrArg (fun s : String => s.toList.take 14) h1
  revert h2
  decide

/-! ## Required operations -/

/-- C9: the text `ConcreteClass1::RequiredOperations1` writes differs from the text
`ConcreteClass2::RequiredOperations1` writes, likewise for `RequiredOperation2`, and each of the
four texts begins with the name of its class followed by " says: ". -/
theorem required_operations_variant_specific :
    (Writes ConcreteClass1.RequiredOperations1
        ("ConcreteClass1 says: " ++ "Implemented Operation1\n") ∧
      Writes ConcreteClass2.RequiredOperations1
        ("ConcreteClass2 says: " ++ "Implemented Operation1\n") ∧
      ∀ cout, ConcreteClass1.RequiredOperations1 cout ≠
        ConcreteClass2.RequiredOperations1 cout) ∧
    (Writes ConcreteClass1.RequiredOperation2
        ("ConcreteClass1 says: " ++ "Implemented Operation2\n") ∧
      Writes ConcreteClass2.RequiredOperation2
        ("ConcreteClass2 says: " ++ "Implemented Operation2\n") ∧
      ∀ cout, ConcreteClass1.RequiredOperation2 cout ≠
        ConcreteClass2.RequiredOperation2 cout) := by
  refine ⟨⟨fun _ => rfl, fun _ => rfl, fun cout h => ?_⟩,
    ⟨fun _ => rfl, fun _ => rfl, fun cout h => ?_⟩⟩
  · have h1 := append_left_cancel h
    revert h1
    decide
  · have h1 := append_left_cancel h
    revert h1
    decide

/-! ## The driver -/

/-- C10: `main` returns 0, and what it writes is the header line, the output of
`TemplateMethod` on `ConcreteClass1`, one empty line, the header line again and the output of
`TemplateMethod` on `ConcreteClass2`, each run being made through one call of `ClientCode`; run
on an empty stream, the complete output is the fourteen lines listed. -/
theorem main_output_and_status (cout : ostream) :
    main cout =
      (0, cout ++ String.join
        ["Same client code can work with different subclasses:\n",
         ConcreteClass1.TemplateMethod "",
         "\n",
         "Same client code can work with different subclasses:\n",
         ConcreteClass2.TemplateMethod ""]) ∧
    (main cout).2 =
      ClientCode ConcreteClass2 (ClientCode ConcreteClass1
        (cout ++ "Same client code can work with different subclasses:\n") ++ "\n" ++
          "Same client code can work with different subclasses:\n") ∧
    (main "").1 = 0 ∧
    (main "").2 = String.join
        ["Same client code can work with different subclasses:\n",
         "AbstractClass says: I am doing the bulk of the work\n",
         "ConcreteClass1 says: Implemented Operation1\n",
         "AbstractClass says: But I let subclasses override some operations\n",
         "ConcreteClass1 says: Implemented Operation2\n",
         "AbstractClass says: But I am doing the bulk of the work anyway\n",
         "\n",
         "Same client code can work with different subclasses:\n",
         "AbstractClass says: I am doing the bulk of the work\n",
         "ConcreteClass2 says: Implemented Operation1\n",
         "AbstractClass says: But I let subclasses override some operations\n",
         "ConcreteClass2 says: Overridden Hook1\n",
         "ConcreteClass2 says: Implemented Operation2\n",
         "AbstractClass says: But I am doing the bulk of the work anyway\n"] := by
  have out : ∀ c : ostream, (main c).2 =
      c ++ ("Same client code can work with different subclasses:\n" ++
        ("AbstractClass says: I am doing the bulk of the work\n" ++
        ("ConcreteClass1 says: Implemented Operation1\n" ++
        ("AbstractClass says: But I let subclasses override some operations\n" ++
        ("ConcreteClass1 says: Implemented Operation2\n" ++
        ("AbstractClass says: But I am doing the bulk of the work anyway\n" ++
        ("\n" ++
        ("Same client code can work with different subclasses:\n" ++
        ("AbstractClass says: I am doing the bulk of the work\n" ++
        ("ConcreteClass2 says: Implemented Operation1\n" ++
        ("AbstractClass says: But I let subclasses override some operations\n" ++
        ("ConcreteClass2 says: Overridden Hook1\n" ++
        ("ConcreteClass2 says: Implemented Operation2\n" ++
        "AbstractClass says: But I am doing the bulk of the work anyway\n"))))))))))))) := by
    intro c
    simp only [main, ClientCode, ostream.write, concreteClass1_output, concreteClass2_output,
      String.empty_append, String.append_empty, String.append_assoc]
  refine ⟨?_, rfl, rfl, ?_⟩
  · refine Prod.ext rfl ?_
    rw [out cout, concreteClass1_output, concreteClass2_output]
    simp only [String.join, List.foldl, String.empty_append, String.append_empty,
      String.append_assoc]
  · rw [out ""]
    simp only [String.join, List.foldl, String.empty_append, String.append_empty,
      String.append_assoc]

end TemplateMethod
